import Mathlib

/-!
Verification development for the p2pws_python repository.

Shallow embedding of:
- `src/build/lib/p2pws_python/emitter/__init__.py` (class `EventEmitter`):
  the attribute-based single-subscriber event registry;
- `src/p2pws_python/client.py` (class `Client`): the message-routing handler
  `__on_message` (lines 137-171), the session event handlers `__on_ready`,
  `__on_error`, `__on_close` (lines 125-183), and the reconnect supervisor
  loop `_start_async` (lines 93-123).

Conventions of the embedding:
- Python exceptions are modelled explicitly: a function that may let an
  exception escape reports it in its result; an exception swallowed by an
  `except` block is recorded by a Boolean flag.
- Handler coroutines are opaque: a handler is identified by a label, and a
  Boolean-valued environment says whether invoking it raises.
- Awaited side effects (printing, network writes) irrelevant to the claims
  are dropped; payloads handed to `emit` are kept where a claim speaks of
  them.
-/

namespace P2PWS

/-! ## EventEmitter (src/build/lib/p2pws_python/emitter/__init__.py)

`EventEmitter.on` stores a listener by doing `setattr(self, f.__name__, f)`
(line 66) after checking `asyncio.iscoroutinefunction(f)` (line 62).
`EventEmitter.emit` (lines 70-76) does `hasattr(self, event)` /
`getattr(self, event)`: the lookup goes through the ordinary Python
attribute machinery, so it can also find pre-existing attributes of the
object (methods such as `on`, `emit`, `start`, and data fields such as
`isReady`).  We model the effective attribute map as an association list:
an instance attribute written by `setattr` shadows a class attribute of the
same name, which the in-place replacement of `setattrA` reflects. -/

/-- What an attribute name can resolve to on the client object:
a listener registered via `on` (a coroutine function, always truthy),
a pre-existing truthy non-listener attribute (e.g. a bound method or the
`option` object), or a falsy data attribute (e.g. `isReady = False`,
`ws = None`, the empty `_listeners` dict). -/
inductive PyAttr
  | handler (id : Nat)
  | truthyNonHandler
  | falsyValue
deriving DecidableEq, Repr

abbrev Attrs := List (String × PyAttr)

/-- Python `getattr(self, n)` as a lookup in the effective attribute map. -/
def getattr : Attrs → String → Option PyAttr
  | [], _ => none
  | (k, v) :: rest, n => if k = n then some v else getattr rest n

/-- Python `setattr(self, n, v)`: the new binding shadows (replaces) any
previous binding for `n`. -/
def setattrA : Attrs → String → PyAttr → Attrs
  | [], n, v => [(n, v)]
  | (k, w) :: rest, n, v =>
      if k = n then (n, v) :: rest else (k, w) :: setattrA rest n v

/-- Model of `EventEmitter.on` (lines 58-67): raises `TypeError` unless `f` is a
coroutine function, otherwise binds `f` as the attribute named
`f.__name__`. -/
def emitterOn (a : Attrs) (fname : String) (fid : Nat) (isCoroFn : Bool) :
    Except String Attrs :=
  if isCoroFn = false then Except.error "TypeError"
  else Except.ok (setattrA a fname (PyAttr.handler fid))

/-- Outcome of one `EventEmitter.emit` call (lines 70-76). -/
inductive EmitResult
  /-- `hasattr` is false: the call returns silently, invoking nothing. -/
  | noop
  /-- The attribute exists but is falsy: the "no listeners" message is
  printed, nothing is invoked, nothing is raised. -/
  | printedNoListener
  /-- A registered handler was awaited and completed normally. -/
  | invoked (id : Nat)
  /-- A registered handler was awaited and raised; `emit` has no
  `try`/`except`, so the exception escapes `emit` to its caller. -/
  | handlerRaised (id : Nat)
  /-- The attribute is a truthy non-listener: `await listener(*args)`
  calls the attribute.  For a bound method such as `on` (which requires a
  positional argument), the call raises `TypeError`; in every case the
  call is not a silent no-op. -/
  | calledAttr
deriving DecidableEq, Repr

/-- The environment that never makes a handler raise. -/
def noThrowN : Nat → Bool := fun _ => false

/-- Model of `EventEmitter.emit` (lines 70-76), with `throws id` saying whether the
handler labelled `id` raises when awaited. -/
def emitE (a : Attrs) (ev : String) (throws : Nat → Bool) : EmitResult :=
  match getattr a ev with
  | none => EmitResult.noop
  | some (PyAttr.handler id) =>
      if throws id then EmitResult.handlerRaised id else EmitResult.invoked id
  | some PyAttr.truthyNonHandler => EmitResult.calledAttr
  | some PyAttr.falsyValue => EmitResult.printedNoListener

/-- The effective attribute map of a freshly constructed `Client` with no
listeners registered: `EventEmitter.__init__` sets `_listeners = {}`
(falsy), `Client.__init__` sets `option`; the class supplies `ws = None`
and `isReady = False` (falsy) plus the bound methods.  The annotated
`cache` field is never assigned (line 75 is commented out), so no `cache`
attribute exists.  (Name-mangled private methods appear under their
mangled names.) -/
def clientInitialAttrs : Attrs :=
  [("_listeners", PyAttr.falsyValue),
   ("option", PyAttr.truthyNonHandler),
   ("ws", PyAttr.falsyValue),
   ("isReady", PyAttr.falsyValue),
   ("on", PyAttr.truthyNonHandler),
   ("emit", PyAttr.truthyNonHandler),
   ("start", PyAttr.truthyNonHandler),
   ("_start_async", PyAttr.truthyNonHandler),
   ("_Client__on_ready", PyAttr.truthyNonHandler),
   ("_Client__on_message", PyAttr.truthyNonHandler),
   ("_Client__on_error", PyAttr.truthyNonHandler),
   ("_Client__on_close", PyAttr.truthyNonHandler),
   ("__debug_message__", PyAttr.truthyNonHandler),
   ("__get_ws_url__", PyAttr.truthyNonHandler)]

/-! ## Message routing (`Client.__on_message`, client.py lines 137-171)

The handler first awaits `self.emit('rawmessage', message)` (line 144)
OUTSIDE the `try` block, then inside `try`: `json.loads`, the discriminant
dispatch on `data['code']` for 551/552/556 (construct the typed payload,
emit the typed event, then `self.cache.set(...)`), with a blanket
`except Exception` (line 168) that only logs. -/

/-- Abstraction of one incoming frame. `envelope = some code` when
`json.loads(message)` succeeds and yields a dict whose `'code'` lookup
succeeds with that integer; `envelope = none` when parsing (or the `'code'`
access on line 148) raises.  `bodyDecodes` says whether the typed payload
constructor (`EarthquakeReports`/`Tsunami`/`EEW`) succeeds on the parsed
dict; `msgId` is the `_id` of the decoded payload. -/
structure Frame where
  raw : String
  envelope : Option Int
  bodyDecodes : Bool
  msgId : String
deriving DecidableEq, Repr

/-- Payload handed to `emit` by `__on_message`. -/
inductive Payload
  /-- The undecoded frame text, as passed to `emit('rawmessage', message)`. -/
  | rawText (t : String)
  /-- The typed payload object constructed for a known discriminant. -/
  | decoded (code : Int) (id : String)
deriving DecidableEq, Repr

/-- Result of one `__on_message` call: the `emit` publications in order,
the cache writes in order, whether an exception escaped the call
(`raised`), and whether the blanket `except Exception` block ran
(`caught`). -/
structure MsgResult where
  events : List (String × Payload)
  writes : List String
  raised : Bool
  caught : Bool
deriving DecidableEq, Repr

/-- State threaded through the `try` block: publications and cache writes
so far, and whether an exception is propagating (it will be caught by the
`except Exception` on line 168, and later statements of the `try` body do
not run). -/
structure TrySt where
  events : List (String × Payload)
  writes : List String
  exc : Bool
deriving DecidableEq, Repr

/-- One `if data['code'] == target:` block of `__on_message`
(lines 151-154, 157-160, 163-166): construct the typed payload (which can
raise), emit the typed event (whose handler can raise), then
`self.cache.set(dataClass._id, dataClass)` — which raises
`AttributeError` when the client has no `cache` attribute. -/
def tryBranch (hasCache : Bool) (throws : String → Bool) (f : Frame)
    (code target : Int) (evName : String) (s : TrySt) : TrySt :=
  if s.exc then s
  else if code = target then
    if f.bodyDecodes = false then { s with exc := true }
    else
      let s1 : TrySt :=
        { s with events := s.events ++ [(evName, Payload.decoded target f.msgId)] }
      if throws evName then { s1 with exc := true }
      else if hasCache = false then { s1 with exc := true }
      else { s1 with writes := s1.writes ++ [f.msgId] }
  else s

/-- The environment in which no registered listener raises. -/
def noThrowS : String → Bool := fun _ => false

/-- Model of `Client.__on_message` (lines 137-171).  `throws ev` says whether the
listener registered for event `ev` raises when awaited (false also covers
"no listener registered", where `emit` is a no-op). -/
def onMessage (hasCache : Bool) (throws : String → Bool) (f : Frame) :
    MsgResult :=
  let rawEv := ("rawmessage", Payload.rawText f.raw)
  if throws "rawmessage" then
    { events := [rawEv], writes := [], raised := true, caught := false }
  else
    match f.envelope with
    | none => { events := [rawEv], writes := [], raised := false, caught := true }
    | some code =>
        let s0 : TrySt := ⟨[], [], false⟩
        let s1 := tryBranch hasCache throws f code 551 "earthquake" s0
        let s2 := tryBranch hasCache throws f code 552 "tsunami" s1
        let s3 := tryBranch hasCache throws f code 556 "eew" s2
        { events := rawEv :: s3.events, writes := s3.writes,
          raised := false, caught := s3.exc }

/-- Fact from `Client.__init__` (lines 65-75): it leaves `self.cache` unassigned: the
`DataCacheManager()` construction on line 75 is commented out. -/
def clientHasCache : Bool := false

/-- The typed event name emitted for each known discriminant
(lines 151-166). -/
def typedEvent (c : Int) : String :=
  if c = 551 then "earthquake"
  else if c = 552 then "tsunami"
  else if c = 556 then "eew"
  else ""

/-! ## Session handlers and the reconnect supervisor
(`Client._start_async`, client.py lines 93-123)

`_start_async` loops: connect, `__on_ready` (sets `isReady = True`, emits
`'ready'`), drain messages; on normal end of the `async for`, `__on_close`
(sets `isReady = False`, emits `'close'`) and `break`; on
`websockets.exceptions.ConnectionClosed`, `__on_close` and retry; on any
other `Exception`, `__on_error` (emits `'error'`, does NOT touch
`isReady`) and retry.  After a failed attempt `retries += 1`; if
`max_retries` is set and `retries >= max_retries`, log and `break`
(no sleep); otherwise `await asyncio.sleep(retry_interval)` and loop.
The in-session message traffic is modelled separately by `onMessage`;
here each attempt is summarised by its termination outcome. -/

/-- A client-level event published by the session handlers.  The payload
of `'error'` (the causing exception, line 176) is kept as an opaque
label. -/
inductive SEv
  | ready
  | closed
  | errored (cause : Nat)
deriving DecidableEq, Repr

/-- The client state the session handlers touch: the `isReady` flag and
the publication trace. -/
structure CState where
  isReady : Bool
  trace : List SEv
deriving DecidableEq, Repr

/-- Model of `Client.__on_ready` (lines 125-135): sets `isReady = True`, emits
`'ready'`. -/
def onReadyH (s : CState) : CState :=
  { isReady := true, trace := s.trace ++ [SEv.ready] }

/-- Model of `Client.__on_close` (lines 179-183): sets `isReady = False`, emits
`'close'`. -/
def onCloseH (s : CState) : CState :=
  { isReady := false, trace := s.trace ++ [SEv.closed] }

/-- Model of `Client.__on_error` (lines 173-177): emits `'error'` with the causing
error value; `isReady` is left unchanged. -/
def onErrorH (c : Nat) (s : CState) : CState :=
  { s with trace := s.trace ++ [SEv.errored c] }

/-- Termination outcome of one connection attempt, as discriminated by
the `try`/`except` structure of `_start_async` (lines 103-117). -/
inductive Outcome
  /-- Handshake succeeded and the `async for` ended normally (clean
  remote-initiated close): lines 104-111. -/
  | cleanClose
  /-- Handshake succeeded, then `ConnectionClosed` was raised (abnormal
  close): lines 112-114. -/
  | connClosed
  /-- Handshake succeeded, then some other exception escaped the receive
  loop (e.g. a raising `rawmessage` listener): lines 115-117. -/
  | otherError (cause : Nat)
  /-- `websockets.connect` itself raised, before `__on_ready` ran: also
  the generic `except Exception` path, lines 115-117. -/
  | connectError (cause : Nat)
deriving DecidableEq, Repr

/-- One iteration body of `_start_async` up to the retry bookkeeping:
runs the session handlers dictated by the outcome and reports whether the
`break` on line 111 fires. -/
def runSession (s : CState) : Outcome → CState × Bool
  | Outcome.cleanClose => (onCloseH (onReadyH s), true)
  | Outcome.connClosed => (onCloseH (onReadyH s), false)
  | Outcome.otherError c => (onErrorH c (onReadyH s), false)
  | Outcome.connectError c => (onErrorH c s, false)

/-- The events one session publishes for a given outcome. -/
def sessionEvents (o : Outcome) : List SEv :=
  (runSession ⟨false, []⟩ o).1.trace

/-- Whether an outcome takes the retry path (everything except the clean
close, which breaks out of the loop). -/
def isFailure : Outcome → Bool
  | Outcome.cleanClose => false
  | _ => true

/-- Supervisor state across attempts: the client state, the `retries`
counter (line 100/118) and the list of performed backoff sleeps, each
recorded with its duration (`retry_interval`, line 123 — the source always
sleeps the same fixed value). -/
structure SupSt where
  cs : CState
  retries : Nat
  sleeps : List ℚ
deriving DecidableEq, Repr

/-- Why the supervisor loop stopped. -/
inductive StopReason
  /-- The `break` on line 111: clean close, treated as final. -/
  | normalExit
  /-- The `break` on line 121 after "Max retries reached" was logged:
  the condition is logged, not raised to the caller. -/
  | retriesExhausted
deriving DecidableEq, Repr

/-- Result of running `_start_async`'s `while True` loop with bounded
fuel; `outOfFuel` stands for the loop still running (it never returns a
value through an exception). -/
inductive LoopResult
  | finished (st : SupSt) (r : StopReason)
  | outOfFuel (st : SupSt)
deriving DecidableEq, Repr

/-- Model of `Client._start_async` (lines 93-123).  `outcomes i` is the
termination outcome of the attempt made while `retries = i`;
`maxRetries`/`interval` are the `max_retries`/`retry_interval`
parameters.  Each recursive call consumes one unit of fuel, so with
`maxRetries = some n` and fuel `≥ n` the model is exact. -/
def runLoop (outcomes : Nat → Outcome) (maxRetries : Option Nat)
    (interval : ℚ) : Nat → SupSt → LoopResult
  | 0, st => LoopResult.outOfFuel st
  | Nat.succ fuel, st =>
      let p := runSession st.cs (outcomes st.retries)
      if p.2 then
        LoopResult.finished { st with cs := p.1 } StopReason.normalExit
      else
        let r := st.retries + 1
        match maxRetries with
        | some m =>
            if m ≤ r then
              LoopResult.finished
                { cs := p.1, retries := r, sleeps := st.sleeps }
                StopReason.retriesExhausted
            else
              runLoop outcomes maxRetries interval fuel
                { cs := p.1, retries := r, sleeps := st.sleeps ++ [interval] }
        | none =>
            runLoop outcomes maxRetries interval fuel
              { cs := p.1, retries := r, sleeps := st.sleeps ++ [interval] }

/-- The state carried by a loop result. -/
def resultState : LoopResult → SupSt
  | LoopResult.finished st _ => st
  | LoopResult.outOfFuel st => st

/-- The stop reason of a loop result, if the loop stopped. -/
def resultReason : LoopResult → Option StopReason
  | LoopResult.finished _ r => some r
  | LoopResult.outOfFuel _ => none

/-! ## Theorems -/

/-- Auxiliary: a `setattr` binding is what a subsequent `getattr` of the
same name finds. -/
theorem getattr_setattrA (a : Attrs) (n : String) (v : PyAttr) :
    getattr (setattrA a n v) n = some v := by
  induction a with
  | nil => simp [setattrA, getattr]
  | cons kv rest ih =>
      obtain ⟨k, w⟩ := kv
      by_cases h : k = n
      · subst h; simp [setattrA, getattr]
      · simp [setattrA, getattr, h, ih]

/-- Claim C6: registering a second handler under an event name overwrites
the first (the handler is replaced, never queued), and a subsequent
publish for that name invokes only the most recently registered handler
(last-write-wins, single-subscriber semantics). -/
theorem emitter_last_write_wins (a a1 a2 : Attrs) (n : String)
    (id1 id2 : Nat)
    (_h1 : emitterOn a n id1 true = Except.ok a1)
    (h2 : emitterOn a1 n id2 true = Except.ok a2) :
    emitE a2 n noThrowN = EmitResult.invoked id2 ∧
      (id1 ≠ id2 → emitE a2 n noThrowN ≠ EmitResult.invoked id1) := by
  have e2 : a2 = setattrA a1 n (PyAttr.handler id2) := by
    have h2x := h2
    simp [emitterOn] at h2x
    exact h2x.symm
  subst e2
  constructor
  · simp [emitE, getattr_setattrA, noThrowN]
  · intro hne hc
    simp [emitE, getattr_setattrA, noThrowN] at hc
    exact hne hc.symm

/-- Witness for C6 at a concrete registration sequence. -/
theorem emitter_last_write_wins_witness :
    emitE [("x", PyAttr.handler 2)] "x" noThrowN = EmitResult.invoked 2 ∧
      emitE [("x", PyAttr.handler 2)] "x" noThrowN ≠ EmitResult.invoked 1 := by
  have h := emitter_last_write_wins [] [("x", PyAttr.handler 1)]
    [("x", PyAttr.handler 2)] "x" 1 2 rfl rfl
  exact ⟨h.1, h.2 (by decide)⟩

/-- Claim C7, counterexample: publish on an event name with no registered
handler is not always a silent no-op.  No handler was ever registered for
the name "on", yet the bound method `EventEmitter.on` makes
`hasattr(self, 'on')` true, so `emit('on')` awaits `self.on()` — which is
invoked and raises `TypeError` (missing required positional argument
`f`) — rather than returning silently. -/
theorem publish_unregistered_collision_cex :
    getattr clientInitialAttrs "on" = some PyAttr.truthyNonHandler ∧
      emitE clientInitialAttrs "on" noThrowN = EmitResult.calledAttr ∧
      EmitResult.calledAttr ≠ EmitResult.noop ∧
      EmitResult.calledAttr ≠ EmitResult.printedNoListener := by
  decide

/-- Claim C7, amended: for every event name that is absent from the object
attribute map (no registered handler and no pre-existing attribute of that
name), publish is a silent no-op that never raises and invokes nothing; in
particular this holds on a fresh client for all the documented event names
(ready, rawmessage, earthquake, tsunami, eew, error, close). -/
theorem publish_unregistered_silent_noop (a : Attrs) (n : String)
    (thr : Nat → Bool) (h : getattr a n = none) :
    emitE a n thr = EmitResult.noop ∧
      emitE clientInitialAttrs "ready" noThrowN = EmitResult.noop ∧
      emitE clientInitialAttrs "rawmessage" noThrowN = EmitResult.noop ∧
      emitE clientInitialAttrs "earthquake" noThrowN = EmitResult.noop ∧
      emitE clientInitialAttrs "tsunami" noThrowN = EmitResult.noop ∧
      emitE clientInitialAttrs "eew" noThrowN = EmitResult.noop ∧
      emitE clientInitialAttrs "error" noThrowN = EmitResult.noop ∧
      emitE clientInitialAttrs "close" noThrowN = EmitResult.noop :=
  ⟨by simp [emitE, h], by decide, by decide, by decide, by decide,
    by decide, by decide, by decide⟩

/-- Witness for the amended C7 at a concrete absent name. -/
theorem publish_unregistered_silent_noop_witness :
    emitE [] "somethingelse" noThrowN = EmitResult.noop ∧
      emitE clientInitialAttrs "ready" noThrowN = EmitResult.noop :=
  ⟨(publish_unregistered_silent_noop [] "somethingelse" noThrowN rfl).1,
    (publish_unregistered_silent_noop [] "somethingelse" noThrowN rfl).2.1⟩

/-- Claim C8: a frame whose text fails to parse as a well-formed JSON
envelope is recovered locally: only the raw event is published, no typed
event, no cache write, the blanket except block runs, and no exception
escapes the message-handling step (so the failure never reaches the
receive loop or the supervisor). -/
theorem malformed_frame_dropped (hasC : Bool) (thr : String → Bool)
    (raw msgId : String) (b : Bool) (h : thr "rawmessage" = false) :
    onMessage hasC thr ⟨raw, none, b, msgId⟩ =
      { events := [("rawmessage", Payload.rawText raw)], writes := [],
        raised := false, caught := true } := by
  simp [onMessage, h]

/-- Witness for C8 at a concrete malformed frame. -/
theorem malformed_frame_dropped_witness :
    onMessage false noThrowS ⟨"not json", none, true, ""⟩ =
      { events := [("rawmessage", Payload.rawText "not json")],
        writes := [], raised := false, caught := true } :=
  malformed_frame_dropped false noThrowS "not json" "" true rfl

/-- Claim C1: for every received frame the client first publishes the
unconditional raw event carrying the undecoded frame text; a well-formed
frame with a known discriminant (551, 552, 556) additionally yields
exactly one typed event with the decoded payload, and a well-formed frame
with an unknown discriminant yields no typed event (ignored, not an
error).  Stated for arbitrary cache presence and non-throwing
listeners. -/
theorem frame_routing_dual_publish (hasC : Bool) (raw msgId : String)
    (code : Int) :
    (onMessage hasC noThrowS ⟨raw, some code, true, msgId⟩).events.head? =
        some ("rawmessage", Payload.rawText raw) ∧
      (onMessage hasC noThrowS ⟨raw, some code, true, msgId⟩).raised = false ∧
      (code = 551 →
        (onMessage hasC noThrowS ⟨raw, some code, true, msgId⟩).events =
          [("rawmessage", Payload.rawText raw),
            ("earthquake", Payload.decoded 551 msgId)]) ∧
      (code = 552 →
        (onMessage hasC noThrowS ⟨raw, some code, true, msgId⟩).events =
          [("rawmessage", Payload.rawText raw),
            ("tsunami", Payload.decoded 552 msgId)]) ∧
      (code = 556 →
        (onMessage hasC noThrowS ⟨raw, some code, true, msgId⟩).events =
          [("rawmessage", Payload.rawText raw),
            ("eew", Payload.decoded 556 msgId)]) ∧
      (code ≠ 551 → code ≠ 552 → code ≠ 556 →
        (onMessage hasC noThrowS ⟨raw, some code, true, msgId⟩).events =
          [("rawmessage", Payload.rawText raw)]) := by
  refine ⟨?_, ?_, ?_, ?_, ?_, ?_⟩
  · by_cases h1 : code = 551 <;> by_cases h2 : code = 552 <;>
      by_cases h3 : code = 556 <;> cases hasC <;>
      simp_all [onMessage, tryBranch, noThrowS]
  · by_cases h1 : code = 551 <;> by_cases h2 : code = 552 <;>
      by_cases h3 : code = 556 <;> cases hasC <;>
      simp_all [onMessage, tryBranch, noThrowS]
  · intro h; subst h; cases hasC <;> simp [onMessage, tryBranch, noThrowS]
  · intro h; subst h; cases hasC <;> simp [onMessage, tryBranch, noThrowS]
  · intro h; subst h; cases hasC <;> simp [onMessage, tryBranch, noThrowS]
  · intro h1 h2 h3; simp [onMessage, tryBranch, noThrowS, h1, h2, h3]

/-- Witness for C1 at concrete known and unknown discriminants. -/
theorem frame_routing_dual_publish_witness :
    (onMessage false noThrowS ⟨"m", some 551, true, "id1"⟩).events =
        [("rawmessage", Payload.rawText "m"),
          ("earthquake", Payload.decoded 551 "id1")] ∧
      (onMessage false noThrowS ⟨"m", some 999, true, "id1"⟩).events =
        [("rawmessage", Payload.rawText "m")] :=
  ⟨(frame_routing_dual_publish false "m" "id1" 551).2.2.1 rfl,
    (frame_routing_dual_publish false "m" "id1" 999).2.2.2.2.2
      (by decide) (by decide) (by decide)⟩

/-- Claim C9: the cache field is declared but never initialized (its
construction on line 75 is commented out, captured by `clientHasCache`),
so for every successfully decoded message with a known discriminant the
cache write attempted after the typed event fires raises `AttributeError`;
that exception is caught by the same blanket except that recovers
malformed frames (`caught = true`), the typed event has already fired, no
exception escapes, and nothing is ever stored in the cache. -/
theorem cache_write_always_fails (raw msgId : String) (code : Int)
    (h : code = 551 ∨ code = 552 ∨ code = 556) :
    onMessage clientHasCache noThrowS ⟨raw, some code, true, msgId⟩ =
      { events := [("rawmessage", Payload.rawText raw),
                    (typedEvent code, Payload.decoded code msgId)],
        writes := [], raised := false, caught := true } := by
  rcases h with h | h | h <;> subst h <;>
    simp [onMessage, tryBranch, noThrowS, clientHasCache, typedEvent]

/-- Witness for C9 at a concrete 552 (tsunami) frame. -/
theorem cache_write_always_fails_witness :
    onMessage clientHasCache noThrowS ⟨"m", some 552, true, "id9"⟩ =
      { events := [("rawmessage", Payload.rawText "m"),
                    ("tsunami", Payload.decoded 552 "id9")],
        writes := [], raised := false, caught := true } :=
  cache_write_always_fails "m" "id9" 552 (Or.inr (Or.inl rfl))

/-- The listener environment in which exactly the earthquake listener
raises when awaited. -/
def throwsEarthquake : String → Bool := fun s => s == "earthquake"

/-- Claim C2, counterexample: a registered typed-event handler that raises
during publish does NOT abort the session receive-loop iteration and is
not fed to the retry policy.  Here the earthquake listener raises while
being invoked (the typed event is in the publication list, and
`throwsEarthquake` makes its await raise), yet no exception escapes
`__on_message` (`raised = false`): the blanket `except Exception` on
line 168 catches it (`caught = true`), because the typed emits sit inside
the `try` block. -/
theorem handler_exception_not_transport_cex :
    throwsEarthquake "earthquake" = true ∧
      ("earthquake", Payload.decoded 551 "id1") ∈
        (onMessage false throwsEarthquake ⟨"m", some 551, true, "id1"⟩).events ∧
      (onMessage false throwsEarthquake ⟨"m", some 551, true, "id1"⟩).raised
        = false ∧
      (onMessage false throwsEarthquake ⟨"m", some 551, true, "id1"⟩).caught
        = true := by
  decide

/-- Claim C2, amended: handler exceptions are not caught by the emitter
itself — `emit` has no isolation and the exception escapes the publish
call — and a raising rawmessage listener (published outside the `try`)
does abort the receive-loop iteration, which the supervisor treats as a
retryable failure; but an exception from a typed listener (earthquake,
tsunami, eew) is caught by the message step blanket except and does not
abort the loop. -/
theorem handler_exception_propagation_scope (a : Attrs) (n : String)
    (id : Nat) (thr : Nat → Bool) (hasC : Bool) (thrS : String → Bool)
    (f : Frame) (raw msgId : String) (cs : CState) (c : Nat) :
    (getattr a n = some (PyAttr.handler id) → thr id = true →
        emitE a n thr = EmitResult.handlerRaised id) ∧
      (thrS "rawmessage" = true → (onMessage hasC thrS f).raised = true) ∧
      (thrS "rawmessage" = false → thrS "earthquake" = true →
        onMessage hasC thrS ⟨raw, some 551, true, msgId⟩ =
          { events := [("rawmessage", Payload.rawText raw),
                        ("earthquake", Payload.decoded 551 msgId)],
            writes := [], raised := false, caught := true }) ∧
      (runSession cs (Outcome.otherError c)).2 = false := by
  refine ⟨?_, ?_, ?_, rfl⟩
  · intro h1 h2; simp [emitE, h1, h2]
  · intro h; simp [onMessage, h]
  · intro h1 h2; simp [onMessage, tryBranch, h1, h2]

/-- Witness for the amended C2 at concrete listeners and frames. -/
theorem handler_exception_propagation_scope_witness :
    emitE [("x", PyAttr.handler 0)] "x" (fun _ => true) =
        EmitResult.handlerRaised 0 ∧
      (onMessage false (fun _ => true) ⟨"m", some 551, true, "id"⟩).raised
        = true ∧
      onMessage false throwsEarthquake ⟨"m", some 551, true, "id"⟩ =
        { events := [("rawmessage", Payload.rawText "m"),
                      ("earthquake", Payload.decoded 551 "id")],
          writes := [], raised := false, caught := true } ∧
      (runSession ⟨false, []⟩ (Outcome.otherError 3)).2 = false :=
  ⟨(handler_exception_propagation_scope [("x", PyAttr.handler 0)] "x" 0
      (fun _ => true) false (fun _ => true) ⟨"m", some 551, true, "id"⟩
      "m" "id" ⟨false, []⟩ 3).1 (by decide) rfl,
    (handler_exception_propagation_scope [("x", PyAttr.handler 0)] "x" 0
      (fun _ => true) false (fun _ => true) ⟨"m", some 551, true, "id"⟩
      "m" "id" ⟨false, []⟩ 3).2.1 rfl,
    (handler_exception_propagation_scope [("x", PyAttr.handler 0)] "x" 0
      (fun _ => true) false throwsEarthquake ⟨"m", some 551, true, "id"⟩
      "m" "id" ⟨false, []⟩ 3).2.2.1 (by decide) (by decide),
    (handler_exception_propagation_scope [("x", PyAttr.handler 0)] "x" 0
      (fun _ => true) false throwsEarthquake ⟨"m", some 551, true, "id"⟩
      "m" "id" ⟨false, []⟩ 3).2.2.2⟩

/-- Auxiliary: every failure outcome takes the retry path (only the clean
close breaks out of the loop). -/
theorem isFailure_not_break (cs : CState) (o : Outcome)
    (h : isFailure o = true) : (runSession cs o).2 = false := by
  cases o <;> simp_all [runSession, isFailure]

/-- Auxiliary: running the loop with bounded retries against attempts
that all fail stops with retries exhausted, the counter at the bound, and
one fixed-duration sleep between each pair of consecutive attempts. -/
theorem runLoop_allFail (j : Nat) :
    ∀ (outcomes : Nat → Outcome) (m : Nat) (q : ℚ) (st : SupSt),
      0 < j → st.retries + j = m →
      (∀ i, st.retries ≤ i → i < m → isFailure (outcomes i) = true) →
      resultReason (runLoop outcomes (some m) q j st) =
          some StopReason.retriesExhausted ∧
        (resultState (runLoop outcomes (some m) q j st)).retries = m ∧
        (resultState (runLoop outcomes (some m) q j st)).sleeps =
          st.sleeps ++ List.replicate (j - 1) q := by
  induction j with
  | zero => intro _ _ _ _ h; exact absurd h (by simp)
  | succ j ih =>
      intro outcomes m q st _ hsum hfail
      have hbrk : (runSession st.cs (outcomes st.retries)).2 = false :=
        isFailure_not_break _ _ (hfail st.retries le_rfl (by omega))
      cases j with
      | zero =>
          have hm : m ≤ st.retries + 1 := by omega
          simp [runLoop, hbrk, hm, resultReason, resultState]
          omega
      | succ j2 =>
          have hlt : ¬ m ≤ st.retries + 1 := by omega
          have hstep :
              runLoop outcomes (some m) q (j2 + 1 + 1) st =
                runLoop outcomes (some m) q (j2 + 1)
                  ⟨(runSession st.cs (outcomes st.retries)).1,
                    st.retries + 1, st.sleeps ++ [q]⟩ := by
            simp [runLoop, hbrk, hlt]
          rw [hstep]
          have h2 := ih outcomes m q
            ⟨(runSession st.cs (outcomes st.retries)).1,
              st.retries + 1, st.sleeps ++ [q]⟩
            (by omega) (by simp; omega)
            (fun i hle hltm => hfail i (by simp at hle; omega) hltm)
          refine ⟨h2.1, h2.2.1, ?_⟩
          rw [h2.2.2]
          simp [List.append_assoc, List.replicate_succ]

/-- Auxiliary: the retry counter never decreases over a run of the loop
— it is never reset. -/
theorem runLoop_retries_mono (fuel : Nat) :
    ∀ (outcomes : Nat → Outcome) (mR : Option Nat) (q : ℚ) (st : SupSt),
      st.retries ≤ (resultState (runLoop outcomes mR q fuel st)).retries := by
  induction fuel with
  | zero => intro _ _ _ st; simp [runLoop, resultState]
  | succ fuel ih =>
      intro outcomes mR q st
      by_cases hbrk : (runSession st.cs (outcomes st.retries)).2
      · simp [runLoop, hbrk, resultState]
      · cases mR with
        | some m =>
            by_cases hm : m ≤ st.retries + 1
            · simp [runLoop, hbrk, hm, resultState]
            · have h2 := ih outcomes (some m) q
                ⟨(runSession st.cs (outcomes st.retries)).1,
                  st.retries + 1, st.sleeps ++ [q]⟩
              simp [runLoop, hbrk, hm]
              exact le_trans (Nat.le_succ _) h2
        | none =>
            have h2 := ih outcomes none q
              ⟨(runSession st.cs (outcomes st.retries)).1,
                st.retries + 1, st.sleeps ++ [q]⟩
            simp [runLoop, hbrk]
            exact le_trans (Nat.le_succ _) h2

/-- Claim C3: with maxAttempts set to n (n ≥ 1) and every attempt
terminating in failure, the supervisor runs exactly n sessions, sleeps
the fixed backoff delay between consecutive attempts (n - 1 equal
sleeps), then stops with the retries-exhausted condition — returned, not
raised — and the attempt counter increases monotonically over the life of
one start invocation (never reset). -/
theorem supervisor_exhausts_retries (outcomes : Nat → Outcome) (n : Nat)
    (q : ℚ) (hn : 0 < n)
    (hfail : ∀ i, i < n → isFailure (outcomes i) = true) :
    (resultReason (runLoop outcomes (some n) q n ⟨⟨false, []⟩, 0, []⟩) =
        some StopReason.retriesExhausted ∧
      (resultState
          (runLoop outcomes (some n) q n ⟨⟨false, []⟩, 0, []⟩)).retries = n ∧
      (resultState
          (runLoop outcomes (some n) q n ⟨⟨false, []⟩, 0, []⟩)).sleeps =
        List.replicate (n - 1) q) ∧
    (∀ (outs : Nat → Outcome) (mR : Option Nat) (q2 : ℚ) (fuel : Nat)
        (st : SupSt),
      st.retries ≤ (resultState (runLoop outs mR q2 fuel st)).retries) := by
  refine ⟨?_, fun outs mR q2 fuel st => runLoop_retries_mono fuel outs mR q2 st⟩
  have h := runLoop_allFail n outcomes n q ⟨⟨false, []⟩, 0, []⟩ hn
    (by simp) (fun i _ h2 => hfail i h2)
  simpa using h

/-- Witness for C3: three attempts that all fail to connect, bound 3. -/
theorem supervisor_exhausts_retries_witness :
    resultReason (runLoop (fun _ => Outcome.connectError 0) (some 3) 5 3
        ⟨⟨false, []⟩, 0, []⟩) = some StopReason.retriesExhausted ∧
      (resultState (runLoop (fun _ => Outcome.connectError 0) (some 3) 5 3
          ⟨⟨false, []⟩, 0, []⟩)).retries = 3 ∧
      (resultState (runLoop (fun _ => Outcome.connectError 0) (some 3) 5 3
          ⟨⟨false, []⟩, 0, []⟩)).sleeps = List.replicate 2 5 :=
  (supervisor_exhausts_retries (fun _ => Outcome.connectError 0) 3 5
    (by decide) (fun i _ => rfl)).1

/-- Claim C4: a session that terminates with a clean remote-initiated
close never triggers a retry: whatever the retry bound and however many
attempts remain, the loop stops immediately with the normal-exit reason,
without incrementing the counter or sleeping. -/
theorem normal_close_stops_loop (outcomes : Nat → Outcome)
    (mR : Option Nat) (q : ℚ) (fuel : Nat) (st : SupSt) (hf : 0 < fuel)
    (h : outcomes st.retries = Outcome.cleanClose) :
    runLoop outcomes mR q fuel st =
      LoopResult.finished
        ⟨onCloseH (onReadyH st.cs), st.retries, st.sleeps⟩
        StopReason.normalExit := by
  cases fuel with
  | zero => exact absurd hf (by simp)
  | succ fuel => simp [runLoop, h, runSession]

/-- Witness for C4: a first-attempt clean close with nine attempts
remaining stops the loop at once. -/
theorem normal_close_stops_loop_witness :
    runLoop (fun _ => Outcome.cleanClose) (some 10) 5 1
        ⟨⟨false, []⟩, 0, []⟩ =
      LoopResult.finished ⟨⟨false, [SEv.ready, SEv.closed]⟩, 0, []⟩
        StopReason.normalExit :=
  normal_close_stops_loop (fun _ => Outcome.cleanClose) (some 10) 5 1
    ⟨⟨false, []⟩, 0, []⟩ (by decide) rfl

/-- Claim C5: per session the close event is published exactly once on
both clean and abnormal termination; on the generic-exception paths the
session publishes the error event with the causing error value before
surfacing the failure, and publishes no (second) close event — across all
outcomes a session never publishes close more than once. -/
theorem session_close_exactly_once (c : Nat) :
    sessionEvents Outcome.cleanClose = [SEv.ready, SEv.closed] ∧
      sessionEvents Outcome.connClosed = [SEv.ready, SEv.closed] ∧
      sessionEvents (Outcome.otherError c) = [SEv.ready, SEv.errored c] ∧
      sessionEvents (Outcome.connectError c) = [SEv.errored c] ∧
      (∀ o : Outcome, List.count SEv.closed (sessionEvents o) ≤ 1) := by
  refine ⟨rfl, rfl, rfl, rfl, ?_⟩
  intro o
  cases o <;>
    simp [sessionEvents, runSession, onReadyH, onCloseH, onErrorH, List.count]

/-- Claim C10: on the generic-exception termination path the client
publishes only the error event (after the handshake's ready) and leaves
the rest of the state unchanged — no close event, and the isReady flag
stays true; isReady only ever turns false in a session that publishes
close; and across the backoff sleep into the next attempt the supervisor
carries the state with isReady still true. -/
theorem error_path_leaves_ready (s : CState) (c : Nat) :
    runSession s (Outcome.otherError c) =
        ({ isReady := true, trace := s.trace ++ [SEv.ready, SEv.errored c] },
          false) ∧
      (∀ o, (runSession s o).1.isReady = false →
        SEv.closed ∈ (runSession s o).1.trace ∨ s.isReady = false) ∧
      (∀ (outcomes : Nat → Outcome) (mR : Option Nat) (q : ℚ) (fuel : Nat)
          (st : SupSt) (c2 : Nat),
        outcomes st.retries = Outcome.otherError c2 →
        (mR = none ∨ ∃ m, mR = some m ∧ st.retries + 1 < m) →
        runLoop outcomes mR q (fuel + 1) st =
          runLoop outcomes mR q fuel
            ⟨⟨true, st.cs.trace ++ [SEv.ready, SEv.errored c2]⟩,
              st.retries + 1, st.sleeps ++ [q]⟩) := by
  refine ⟨?_, ?_, ?_⟩
  · simp [runSession, onReadyH, onErrorH]
  · intro o h
    cases o with
    | cleanClose => exact Or.inl (by simp [runSession, onCloseH, onReadyH])
    | connClosed => exact Or.inl (by simp [runSession, onCloseH, onReadyH])
    | otherError c2 => simp [runSession, onErrorH, onReadyH] at h
    | connectError c2 => exact Or.inr (by simpa [runSession, onErrorH] using h)
  · intro outcomes mR q fuel st c2 h1 h2
    rcases h2 with h2 | ⟨m, hm, hlt⟩
    · subst h2
      simp [runLoop, h1, runSession, onReadyH, onErrorH, List.append_assoc]
    · subst hm
      have hn : ¬ m ≤ st.retries + 1 := by omega
      simp [runLoop, h1, runSession, onReadyH, onErrorH, hn,
        List.append_assoc]

/-- Witness for C10 at a concrete state and a concrete loop step. -/
theorem error_path_leaves_ready_witness :
    runSession ⟨false, []⟩ (Outcome.otherError 7) =
        (⟨true, [SEv.ready, SEv.errored 7]⟩, false) ∧
      (SEv.closed ∈ (runSession ⟨false, []⟩ Outcome.cleanClose).1.trace ∨
        (⟨false, []⟩ : CState).isReady = false) ∧
      runLoop (fun _ => Outcome.otherError 7) (some 5) 5 1
          ⟨⟨false, []⟩, 0, []⟩ =
        runLoop (fun _ => Outcome.otherError 7) (some 5) 5 0
          ⟨⟨true, [SEv.ready, SEv.errored 7]⟩, 1, [5]⟩ :=
  ⟨(error_path_leaves_ready ⟨false, []⟩ 7).1,
    (error_path_leaves_ready ⟨false, []⟩ 7).2.1 Outcome.cleanClose
      (by decide),
    (error_path_leaves_ready ⟨false, []⟩ 7).2.2
      (fun _ => Outcome.otherError 7) (some 5) 5 0 ⟨⟨false, []⟩, 0, []⟩ 7
      rfl (Or.inr ⟨5, rfl, by decide⟩)⟩

end P2PWS
